import Mathlib

/-!
Verification of the `relative` crate: typed wrappers (`Code`, `Data`, `Vtable`)
that store a machine-width offset of a static address from a per-segment
anchor, together with the serde codec that attaches and validates a
(build identifier, type fingerprint) stamp.

Addresses and offsets are Rust `usize` values; we model them as natural
numbers reduced modulo `2 ^ 64`, with the wrapping operations made explicit.
A process environment bundles the per-process segment anchors, the build
identifier and the per-type fingerprint/name functions that the Rust code
obtains from `build_id::get()`, `intrinsics::type_id` and
`intrinsics::type_name`.
-/

namespace Relative

/-- The modulus of Rust `usize` arithmetic on a 64-bit target. -/
def USIZE : Nat := 2 ^ 64

theorem USIZE_eq : USIZE = 18446744073709551616 := by norm_num [USIZE]

/-- `usize::wrapping_add`: addition modulo `2 ^ 64`. -/
def wrapping_add (a b : Nat) : Nat := (a + b) % USIZE

/-- `usize::wrapping_sub`: subtraction modulo `2 ^ 64`, in two's-complement
style: subtracting `b` is adding the additive complement of `b % USIZE`. -/
def wrapping_sub (a b : Nat) : Nat := (a + (USIZE - b % USIZE)) % USIZE

/-- Compile-time tags standing for the Rust phantom type parameter `T`. -/
abbrev Ty := Nat

/-- The per-process facts the crate reads ambiently: the three segment
anchors (`relative_code_base as usize`, `&RELATIVE_DATA_BASE as *const () as
usize`, the vtable pointer of `RELATIVE_VTABLE_BASE`), the local build
identifier from `build_id::get()`, and the fingerprint and name each type
tag has inside this compiled image. -/
structure Env where
  codeBase : Nat
  dataBase : Nat
  vtableBase : Nat
  buildId : Nat
  typeId : Ty → Nat
  typeName : Ty → String

/-- `Code<T>(usize, PhantomData)`: an offset into the text segment. -/
structure Code (T : Ty) where
  off : Nat
deriving DecidableEq

/-- `Data<T>(usize, PhantomData)`: an offset into the data/BSS segment. -/
structure Data (T : Ty) where
  off : Nat
deriving DecidableEq

/-- `Vtable<T>(usize, PhantomData)`: an offset into the vtable segment. -/
structure Vtable (T : Ty) where
  off : Nat
deriving DecidableEq

/-- The serde error values the crate's `deserialize` can produce, carrying
exactly the arguments the Rust code feeds to its two `format_args!` calls.
The message for `wrongType` prints a literal placeholder where the
originating type's name would be, because the wire record carries no name. -/
inductive DeError where
  | wrongType (id : Nat) (expectedName : String) (expectedId : Nat)
  | wrongBinary (build localBuild : Nat)
deriving DecidableEq

/-- The rendered error message, following the two format strings in the
source (the originating type's name is the literal placeholder
"???"). -/
def DeError.message : DeError → String
  | .wrongType id expectedName expectedId =>
      "relative reference to wrong type ???:" ++ toString id ++ ", expected "
        ++ expectedName ++ ":" ++ toString expectedId
  | .wrongBinary build localBuild =>
      "relative reference came from a different binary " ++ toString build
        ++ ", expected " ++ toString localBuild

/-- `Code::new(p)`. -/
def Code.new (T : Ty) (p : Nat) : Code T := ⟨p⟩

/-- `Code::from(ptr)`: `Self::new((ptr as usize).wrapping_sub(base))` with
`base = relative_code_base as usize`. -/
def Code.from' (env : Env) (T : Ty) (ptr : Nat) : Code T :=
  Code.new T (wrapping_sub ptr env.codeBase)

/-- `Code::to()`: `base.wrapping_add(self.0)`. -/
def Code.to (env : Env) {T : Ty} (c : Code T) : Nat :=
  wrapping_add env.codeBase c.off

/-- `Data::new(p)`. -/
def Data.new (T : Ty) (p : Nat) : Data T := ⟨p⟩

/-- `Data::from(ptr)`: `Self::new((ptr as usize).wrapping_sub(base))` with
`base = &RELATIVE_DATA_BASE as *const () as usize`. -/
def Data.from' (env : Env) (T : Ty) (ptr : Nat) : Data T :=
  Data.new T (wrapping_sub ptr env.dataBase)

/-- `Data::to()`: `base.wrapping_add(self.0)` (the result is the address the
returned reference points at). -/
def Data.to (env : Env) {T : Ty} (d : Data T) : Nat :=
  wrapping_add env.dataBase d.off

/-- `Vtable::new(p)`. -/
def Vtable.new (T : Ty) (p : Nat) : Vtable T := ⟨p⟩

/-- `Vtable::from(ptr)`: `Self::new((ptr as usize).wrapping_sub(base))` with
`base` the vtable pointer of `RELATIVE_VTABLE_BASE`. -/
def Vtable.from' (env : Env) (T : Ty) (ptr : Nat) : Vtable T :=
  Vtable.new T (wrapping_sub ptr env.vtableBase)

/-- `Vtable::to()`: `base.wrapping_add(self.0)`. -/
def Vtable.to (env : Env) {T : Ty} (v : Vtable T) : Nat :=
  wrapping_add env.vtableBase v.off

/-- `PartialEq for Code<T>`: `self.0 == other.0`. -/
def Code.beq {T : Ty} (a b : Code T) : Bool := a.off == b.off

/-- `Ord for Code<T>`: `self.0.cmp(&other.0)`. -/
def Code.cmp {T : Ty} (a b : Code T) : Ordering := compare a.off b.off

/-- `PartialOrd for Code<T>`: `self.0.partial_cmp(&other.0)`. -/
def Code.partialCmp {T : Ty} (a b : Code T) : Option Ordering :=
  some (compare a.off b.off)

/-- `Hash for Code<T>`: `self.0.hash(state)` — the value feeds exactly its
offset to the hasher state. -/
def Code.hashUpd {σ : Type} (upd : σ → Nat → σ) (s : σ) {T : Ty}
    (c : Code T) : σ := upd s c.off

/-- `PartialEq for Data<T>`: `self.0 == other.0`. -/
def Data.beq {T : Ty} (a b : Data T) : Bool := a.off == b.off

/-- `Ord for Data<T>`: `self.0.cmp(&other.0)`. -/
def Data.cmp {T : Ty} (a b : Data T) : Ordering := compare a.off b.off

/-- `PartialOrd for Data<T>`: `self.0.partial_cmp(&other.0)`. -/
def Data.partialCmp {T : Ty} (a b : Data T) : Option Ordering :=
  some (compare a.off b.off)

/-- `Hash for Data<T>`: `self.0.hash(state)`. -/
def Data.hashUpd {σ : Type} (upd : σ → Nat → σ) (s : σ) {T : Ty}
    (d : Data T) : σ := upd s d.off

/-- `PartialEq for Vtable<T>`: `self.0 == other.0`. -/
def Vtable.beq {T : Ty} (a b : Vtable T) : Bool := a.off == b.off

/-- `Ord for Vtable<T>`: `self.0.cmp(&other.0)`. -/
def Vtable.cmp {T : Ty} (a b : Vtable T) : Ordering := compare a.off b.off

/-- `PartialOrd for Vtable<T>`: `self.0.partial_cmp(&other.0)`. -/
def Vtable.partialCmp {T : Ty} (a b : Vtable T) : Option Ordering :=
  some (compare a.off b.off)

/-- `Hash for Vtable<T>`: `self.0.hash(state)`. -/
def Vtable.hashUpd {σ : Type} (upd : σ → Nat → σ) (s : σ) {T : Ty}
    (v : Vtable T) : σ := upd s v.off

/-- `Serialize for Code<T>`: the ordered tuple
`(build_id::get(), type_id::<T>(), self.0)`. -/
def Code.serialize (env : Env) {T : Ty} (c : Code T) : Nat × Nat × Nat :=
  (env.buildId, env.typeId T, c.off)

/-- `Serialize for Data<T>`: the ordered tuple
`(build_id::get(), type_id::<T>(), self.0)`. -/
def Data.serialize (env : Env) {T : Ty} (d : Data T) : Nat × Nat × Nat :=
  (env.buildId, env.typeId T, d.off)

/-- `Serialize for Vtable<T>`: the ordered tuple
`(build_id::get(), type_id::<T>(), self.0)`. -/
def Vtable.serialize (env : Env) {T : Ty} (v : Vtable T) : Nat × Nat × Nat :=
  (env.buildId, env.typeId T, v.off)

/-- `Deserialize for Code<T>`: destructure `(build, id, ptr)`, compare
`build` with the local build identifier first, then `id` with
`type_id::<T>()`, and only then construct `Self::new(ptr)`. -/
def Code.deserialize (env : Env) (T : Ty) (r : Nat × Nat × Nat) :
    Except DeError (Code T) :=
  let build := r.1
  let id := r.2.1
  let ptr := r.2.2
  let localB := env.buildId
  if build = localB then
    if id = env.typeId T then
      Except.ok (Code.new T ptr)
    else
      Except.error (.wrongType id (env.typeName T) (env.typeId T))
  else
    Except.error (.wrongBinary build localB)

/-- `Deserialize for Data<T>`: destructure `(build, id, ptr)`, compare
`build` with the local build identifier first, then `id` with
`type_id::<T>()`, and only then construct `Self::new(ptr)`. -/
def Data.deserialize (env : Env) (T : Ty) (r : Nat × Nat × Nat) :
    Except DeError (Data T) :=
  let build := r.1
  let id := r.2.1
  let ptr := r.2.2
  let localB := env.buildId
  if build = localB then
    if id = env.typeId T then
      Except.ok (Data.new T ptr)
    else
      Except.error (.wrongType id (env.typeName T) (env.typeId T))
  else
    Except.error (.wrongBinary build localB)

/-- `Deserialize for Vtable<T>`: destructure `(build, id, ptr)`, compare
`build` with the local build identifier first, then `id` with
`type_id::<T>()`, and only then construct `Self::new(ptr)`. -/
def Vtable.deserialize (env : Env) (T : Ty) (r : Nat × Nat × Nat) :
    Except DeError (Vtable T) :=
  let build := r.1
  let id := r.2.1
  let ptr := r.2.2
  let localB := env.buildId
  if build = localB then
    if id = env.typeId T then
      Except.ok (Vtable.new T ptr)
    else
      Except.error (.wrongType id (env.typeName T) (env.typeId T))
  else
    Except.error (.wrongBinary build localB)

/-- A concrete process environment used to instantiate theorems. -/
def envW : Env :=
  { codeBase := 1000
    dataBase := 2000
    vtableBase := 3000
    buildId := 7
    typeId := fun t => t + 100
    typeName := fun t => toString t }

/-- A concrete environment where type tag 1 is named "u16". -/
def envA : Env :=
  { codeBase := 0
    dataBase := 0
    vtableBase := 0
    buildId := 7
    typeId := fun t => t + 100
    typeName := fun t => if t = 1 then "u16" else "other" }

/-- Identical to `envA` except type tag 1 is named "u32". -/
def envB : Env :=
  { envA with typeName := fun t => if t = 1 then "u32" else "other" }

theorem USIZE_pos : 0 < USIZE := by rw [USIZE_eq]; omega

/-- Adding back the anchor after wrapping-subtracting it is the identity on
values below the modulus, whatever the anchor is. -/
theorem wrapping_add_sub_cancel (base a : Nat) (h : a < USIZE) :
    wrapping_add base (wrapping_sub a base) = a := by
  unfold wrapping_add wrapping_sub
  rw [USIZE_eq] at h ⊢
  omega

/-- Claim C1: within one process, for every address below the machine
modulus and every type tag, constructing a relative value with `from` and
resolving it with `to` returns exactly the original address, for all three
segment kinds, because wrapping-subtracting the segment anchor and then
wrapping-adding the same anchor is the identity on machine-width values. -/
theorem C1_local_round_trip (env : Env) (T : Ty) (ptr : Nat)
    (h : ptr < USIZE) :
    Code.to env (Code.from' env T ptr) = ptr ∧
    Data.to env (Data.from' env T ptr) = ptr ∧
    Vtable.to env (Vtable.from' env T ptr) = ptr :=
  ⟨wrapping_add_sub_cancel _ _ h, wrapping_add_sub_cancel _ _ h,
    wrapping_add_sub_cancel _ _ h⟩

/-- Witness for C1 at a concrete environment and address. -/
theorem C1_local_round_trip_witness :
    4242 < USIZE ∧
    (Code.to envW (Code.from' envW 0 4242) = 4242 ∧
      Data.to envW (Data.from' envW 0 4242) = 4242 ∧
      Vtable.to envW (Vtable.from' envW 0 4242) = 4242) :=
  ⟨by rw [USIZE_eq]; omega, C1_local_round_trip envW 0 4242 (by rw [USIZE_eq]; omega)⟩

/-- Claim C2: whenever the record's build identifier differs from the local
one, deserialization of any of the three kinds fails with the cross-binary
error carrying both identifiers, regardless of the fingerprint and offset
fields, and in particular never constructs a relative value. -/
theorem C2_cross_binary_rejection (env : Env) (T : Ty) (build id ptr : Nat)
    (h : build ≠ env.buildId) :
    Code.deserialize env T (build, id, ptr)
        = Except.error (DeError.wrongBinary build env.buildId) ∧
    Data.deserialize env T (build, id, ptr)
        = Except.error (DeError.wrongBinary build env.buildId) ∧
    Vtable.deserialize env T (build, id, ptr)
        = Except.error (DeError.wrongBinary build env.buildId) := by
  refine ⟨?_, ?_, ?_⟩ <;>
    simp [Code.deserialize, Data.deserialize, Vtable.deserialize, h]

/-- Witness for C2 at a concrete environment and record. -/
theorem C2_cross_binary_rejection_witness :
    (8 : Nat) ≠ envW.buildId ∧
    (Code.deserialize envW 0 (8, 100, 5)
        = Except.error (DeError.wrongBinary 8 envW.buildId) ∧
      Data.deserialize envW 0 (8, 100, 5)
        = Except.error (DeError.wrongBinary 8 envW.buildId) ∧
      Vtable.deserialize envW 0 (8, 100, 5)
        = Except.error (DeError.wrongBinary 8 envW.buildId)) :=
  ⟨by decide, C2_cross_binary_rejection envW 0 8 100 5 (by decide)⟩

/-- Claim C3: when the record's build identifier matches the local one but
its fingerprint differs from that of the requested type tag,
deserialization of any of the three kinds fails with the type-mismatch
error and never constructs a relative value; and the build check comes
first: a record whose build identifier differs fails with the cross-binary
error even though its fingerprint also differs. -/
theorem C3_type_confusion_rejection (env : Env) (T : Ty) (build id ptr : Nat)
    (hb : build = env.buildId) (hid : id ≠ env.typeId T) :
    Code.deserialize env T (build, id, ptr)
        = Except.error (DeError.wrongType id (env.typeName T) (env.typeId T)) ∧
    Data.deserialize env T (build, id, ptr)
        = Except.error (DeError.wrongType id (env.typeName T) (env.typeId T)) ∧
    Vtable.deserialize env T (build, id, ptr)
        = Except.error (DeError.wrongType id (env.typeName T) (env.typeId T)) ∧
    (∀ build' ptr', build' ≠ env.buildId →
      Data.deserialize env T (build', id, ptr')
        = Except.error (DeError.wrongBinary build' env.buildId)) := by
  subst hb
  refine ⟨?_, ?_, ?_, fun build' ptr' h' => ?_⟩ <;>
    simp [Code.deserialize, Data.deserialize, Vtable.deserialize, hid, *]

/-- Witness for C3 at a concrete environment and record. -/
theorem C3_type_confusion_rejection_witness :
    (7 : Nat) = envW.buildId ∧ (5 : Nat) ≠ envW.typeId 0 ∧
    (Code.deserialize envW 0 (7, 5, 11)
        = Except.error (DeError.wrongType 5 (envW.typeName 0) (envW.typeId 0)) ∧
      Data.deserialize envW 0 (7, 5, 11)
        = Except.error (DeError.wrongType 5 (envW.typeName 0) (envW.typeId 0)) ∧
      Vtable.deserialize envW 0 (7, 5, 11)
        = Except.error (DeError.wrongType 5 (envW.typeName 0) (envW.typeId 0)) ∧
      (∀ build' ptr', build' ≠ envW.buildId →
        Data.deserialize envW 0 (build', 5, ptr')
          = Except.error (DeError.wrongBinary build' envW.buildId))) :=
  ⟨by decide, by decide,
    C3_type_confusion_rejection envW 0 7 5 11 (by decide) (by decide)⟩

/-- Claim C4: a record whose build identifier and fingerprint both match
deserializes successfully, and the constructed value's stored offset is
exactly the record's offset field; no anchor enters the computation, so
replacing any segment anchor in the environment leaves the result
unchanged. -/
theorem C4_decode_success (env : Env) (T : Ty) (build id ptr : Nat)
    (hb : build = env.buildId) (hid : id = env.typeId T) :
    Code.deserialize env T (build, id, ptr) = Except.ok (Code.new T ptr) ∧
    Data.deserialize env T (build, id, ptr) = Except.ok (Data.new T ptr) ∧
    Vtable.deserialize env T (build, id, ptr) = Except.ok (Vtable.new T ptr) ∧
    (Data.new T ptr).off = ptr ∧
    (∀ b : Nat,
      Data.deserialize { env with dataBase := b } T (build, id, ptr)
        = Except.ok (Data.new T ptr)) ∧
    (∀ b : Nat,
      Code.deserialize { env with codeBase := b } T (build, id, ptr)
        = Except.ok (Code.new T ptr)) ∧
    (∀ b : Nat,
      Vtable.deserialize { env with vtableBase := b } T (build, id, ptr)
        = Except.ok (Vtable.new T ptr)) := by
  subst hb; subst hid
  refine ⟨?_, ?_, ?_, rfl, fun b => ?_, fun b => ?_, fun b => ?_⟩ <;>
    simp [Code.deserialize, Data.deserialize, Vtable.deserialize]

/-- Witness for C4 at a concrete environment and record. -/
theorem C4_decode_success_witness :
    (7 : Nat) = envW.buildId ∧ (100 : Nat) = envW.typeId 0 ∧
    (Code.deserialize envW 0 (7, 100, 42) = Except.ok (Code.new 0 42) ∧
      Data.deserialize envW 0 (7, 100, 42) = Except.ok (Data.new 0 42) ∧
      Vtable.deserialize envW 0 (7, 100, 42) = Except.ok (Vtable.new 0 42) ∧
      (Data.new 0 42).off = 42 ∧
      (∀ b : Nat,
        Data.deserialize { envW with dataBase := b } 0 (7, 100, 42)
          = Except.ok (Data.new 0 42)) ∧
      (∀ b : Nat,
        Code.deserialize { envW with codeBase := b } 0 (7, 100, 42)
          = Except.ok (Code.new 0 42)) ∧
      (∀ b : Nat,
        Vtable.deserialize { envW with vtableBase := b } 0 (7, 100, 42)
          = Except.ok (Vtable.new 0 42))) :=
  ⟨by decide, by decide, C4_decode_success envW 0 7 100 42 (by decide) (by decide)⟩

/-- Claim C5: serialization of a relative value of any of the three kinds
produces exactly the ordered 3-field record whose first component is the
local build identifier, second the requested type's fingerprint and third
the stored offset. -/
theorem C5_encode_postcondition (env : Env) (T : Ty)
    (c : Code T) (d : Data T) (v : Vtable T) :
    Code.serialize env c = (env.buildId, env.typeId T, c.off) ∧
    Data.serialize env d = (env.buildId, env.typeId T, d.off) ∧
    Vtable.serialize env v = (env.buildId, env.typeId T, v.off) ∧
    (Data.serialize env d).1 = env.buildId ∧
    (Data.serialize env d).2.1 = env.typeId T ∧
    (Data.serialize env d).2.2 = d.off :=
  ⟨rfl, rfl, rfl, rfl, rfl, rfl⟩

/-- Claim C6: serializing a relative value and deserializing the resulting
record in the same process succeeds and returns a value equal to the
original, for all three kinds. -/
theorem C6_encode_decode_stability (env : Env) (T : Ty)
    (c : Code T) (d : Data T) (v : Vtable T) :
    Code.deserialize env T (Code.serialize env c) = Except.ok c ∧
    Data.deserialize env T (Data.serialize env d) = Except.ok d ∧
    Vtable.deserialize env T (Vtable.serialize env v) = Except.ok v := by
  obtain ⟨x⟩ := c; obtain ⟨y⟩ := d; obtain ⟨z⟩ := v
  refine ⟨?_, ?_, ?_⟩ <;>
    simp [Code.deserialize, Data.deserialize, Vtable.deserialize,
      Code.serialize, Data.serialize, Vtable.serialize,
      Code.new, Data.new, Vtable.new]

/-- Claim C7: for two relative values of the same segment kind and type
tag, equality as implemented is equality of offsets, the implemented
comparison is exactly the comparison of the offsets as unsigned integers
(so the order is total and agrees with offset order), and hashing feeds
exactly the offset to the hasher, so equal values hash equally. -/
theorem C7_eq_ord_hash_structural (T : Ty)
    (a b : Code T) (a2 b2 : Data T) (a3 b3 : Vtable T) :
    ((Code.beq a b = true) ↔ a = b) ∧
    (a = b ↔ a.off = b.off) ∧
    Code.cmp a b = compare a.off b.off ∧
    ((Code.cmp a b = Ordering.lt) ↔ a.off < b.off) ∧
    Code.partialCmp a b = some (Code.cmp a b) ∧
    (∀ (σ : Type) (upd : σ → Nat → σ) (s : σ),
      Code.hashUpd upd s a = upd s a.off) ∧
    (a = b → ∀ (σ : Type) (upd : σ → Nat → σ) (s : σ),
      Code.hashUpd upd s a = Code.hashUpd upd s b) ∧
    ((Data.beq a2 b2 = true) ↔ a2 = b2) ∧
    (a2 = b2 ↔ a2.off = b2.off) ∧
    Data.cmp a2 b2 = compare a2.off b2.off ∧
    ((Data.cmp a2 b2 = Ordering.lt) ↔ a2.off < b2.off) ∧
    Data.partialCmp a2 b2 = some (Data.cmp a2 b2) ∧
    (∀ (σ : Type) (upd : σ → Nat → σ) (s : σ),
      Data.hashUpd upd s a2 = upd s a2.off) ∧
    (a2 = b2 → ∀ (σ : Type) (upd : σ → Nat → σ) (s : σ),
      Data.hashUpd upd s a2 = Data.hashUpd upd s b2) ∧
    ((Vtable.beq a3 b3 = true) ↔ a3 = b3) ∧
    (a3 = b3 ↔ a3.off = b3.off) ∧
    Vtable.cmp a3 b3 = compare a3.off b3.off ∧
    ((Vtable.cmp a3 b3 = Ordering.lt) ↔ a3.off < b3.off) ∧
    Vtable.partialCmp a3 b3 = some (Vtable.cmp a3 b3) ∧
    (∀ (σ : Type) (upd : σ → Nat → σ) (s : σ),
      Vtable.hashUpd upd s a3 = upd s a3.off) ∧
    (a3 = b3 → ∀ (σ : Type) (upd : σ → Nat → σ) (s : σ),
      Vtable.hashUpd upd s a3 = Vtable.hashUpd upd s b3) := by
  obtain ⟨x⟩ := a; obtain ⟨y⟩ := b
  obtain ⟨x2⟩ := a2; obtain ⟨y2⟩ := b2
  obtain ⟨x3⟩ := a3; obtain ⟨y3⟩ := b3
  refine ⟨?_, ?_, rfl, ?_, rfl, fun σ upd s => rfl, ?_,
    ?_, ?_, rfl, ?_, rfl, fun σ upd s => rfl, ?_,
    ?_, ?_, rfl, ?_, rfl, fun σ upd s => rfl, ?_⟩ <;>
    simp [Code.beq, Data.beq, Vtable.beq, Code.cmp, Data.cmp, Vtable.cmp,
      Nat.compare_eq_lt]
  all_goals rintro rfl; intro σ upd s; rfl

/-- Witness for C7 at concrete values (its only hypotheses are the inner
equality premises of the hash clauses, discharged at equal offsets). -/
theorem C7_eq_ord_hash_structural_witness :
    ((Code.beq (Code.new 0 3) (Code.new 0 3) = true)
        ↔ Code.new 0 3 = Code.new 0 3) ∧
    (Code.new 0 3 = Code.new 0 3 ↔ (Code.new 0 3).off = (Code.new 0 3).off) ∧
    Code.cmp (Code.new 0 3) (Code.new 0 3)
        = compare (Code.new 0 3).off (Code.new 0 3).off ∧
    ((Code.cmp (Code.new 0 3) (Code.new 0 3) = Ordering.lt)
        ↔ (Code.new 0 3).off < (Code.new 0 3).off) ∧
    Code.partialCmp (Code.new 0 3) (Code.new 0 3)
        = some (Code.cmp (Code.new 0 3) (Code.new 0 3)) ∧
    (∀ (σ : Type) (upd : σ → Nat → σ) (s : σ),
      Code.hashUpd upd s (Code.new 0 3) = upd s (Code.new 0 3).off) ∧
    (Code.new 0 3 = Code.new 0 3 → ∀ (σ : Type) (upd : σ → Nat → σ) (s : σ),
      Code.hashUpd upd s (Code.new 0 3) = Code.hashUpd upd s (Code.new 0 3)) ∧
    ((Data.beq (Data.new 0 4) (Data.new 0 5) = true)
        ↔ Data.new 0 4 = Data.new 0 5) ∧
    (Data.new 0 4 = Data.new 0 5 ↔ (Data.new 0 4).off = (Data.new 0 5).off) ∧
    Data.cmp (Data.new 0 4) (Data.new 0 5)
        = compare (Data.new 0 4).off (Data.new 0 5).off ∧
    ((Data.cmp (Data.new 0 4) (Data.new 0 5) = Ordering.lt)
        ↔ (Data.new 0 4).off < (Data.new 0 5).off) ∧
    Data.partialCmp (Data.new 0 4) (Data.new 0 5)
        = some (Data.cmp (Data.new 0 4) (Data.new 0 5)) ∧
    (∀ (σ : Type) (upd : σ → Nat → σ) (s : σ),
      Data.hashUpd upd s (Data.new 0 4) = upd s (Data.new 0 4).off) ∧
    (Data.new 0 4 = Data.new 0 5 → ∀ (σ : Type) (upd : σ → Nat → σ) (s : σ),
      Data.hashUpd upd s (Data.new 0 4) = Data.hashUpd upd s (Data.new 0 5)) ∧
    ((Vtable.beq (Vtable.new 0 6) (Vtable.new 0 6) = true)
        ↔ Vtable.new 0 6 = Vtable.new 0 6) ∧
    (Vtable.new 0 6 = Vtable.new 0 6
        ↔ (Vtable.new 0 6).off = (Vtable.new 0 6).off) ∧
    Vtable.cmp (Vtable.new 0 6) (Vtable.new 0 6)
        = compare (Vtable.new 0 6).off (Vtable.new 0 6).off ∧
    ((Vtable.cmp (Vtable.new 0 6) (Vtable.new 0 6) = Ordering.lt)
        ↔ (Vtable.new 0 6).off < (Vtable.new 0 6).off) ∧
    Vtable.partialCmp (Vtable.new 0 6) (Vtable.new 0 6)
        = some (Vtable.cmp (Vtable.new 0 6) (Vtable.new 0 6)) ∧
    (∀ (σ : Type) (upd : σ → Nat → σ) (s : σ),
      Vtable.hashUpd upd s (Vtable.new 0 6) = upd s (Vtable.new 0 6).off) ∧
    (Vtable.new 0 6 = Vtable.new 0 6 → ∀ (σ : Type) (upd : σ → Nat → σ) (s : σ),
      Vtable.hashUpd upd s (Vtable.new 0 6)
        = Vtable.hashUpd upd s (Vtable.new 0 6)) :=
  C7_eq_ord_hash_structural 0 (Code.new 0 3) (Code.new 0 3)
    (Data.new 0 4) (Data.new 0 5) (Vtable.new 0 6) (Vtable.new 0 6)

/-- Claim C8, counterexample: the type-mismatch failure does not carry the
record's originating type name. Two environments that differ only in the
name of the originating type tag 1 ("u16" versus "u32") produce identical
errors when a record serialized from a value of tag 1 is deserialized at
the requested tag 0, so the error cannot carry the originating name; its
message shows a literal placeholder in that position instead. -/
theorem C8_counterexample :
    Data.deserialize envA 0 (Data.serialize envA (Data.new 1 5))
      = Data.deserialize envB 0 (Data.serialize envB (Data.new 1 5)) ∧
    envA.typeName 1 ≠ envB.typeName 1 ∧
    Data.deserialize envA 0 (Data.serialize envA (Data.new 1 5))
      = Except.error (DeError.wrongType 101 "other" 100) ∧
    (DeError.wrongType 101 "other" 100).message
      = "relative reference to wrong type ???:101, expected other:100" := by
  refine ⟨?_, ?_, ?_, by decide⟩ <;>
    simp [Data.deserialize, Data.serialize, Data.new, envA, envB]

/-- Claim C8 as amended: when decode fails on a matching build identifier
but differing fingerprints, the failure carries both fingerprints (the
record's and the locally expected one) and, for diagnostics, the requested
type's name only; the record's originating type name is not available and
the message renders a placeholder in its position. -/
theorem C8_typemismatch_diagnostics (env : Env) (T : Ty) (build id ptr : Nat)
    (hb : build = env.buildId) (hid : id ≠ env.typeId T) :
    Data.deserialize env T (build, id, ptr)
      = Except.error (DeError.wrongType id (env.typeName T) (env.typeId T)) ∧
    (DeError.wrongType id (env.typeName T) (env.typeId T)).message
      = "relative reference to wrong type ???:" ++ toString id
          ++ ", expected " ++ env.typeName T ++ ":"
          ++ toString (env.typeId T) := by
  subst hb
  exact ⟨by simp [Data.deserialize, hid], rfl⟩

/-- Witness for the amended C8 at a concrete environment and record. -/
theorem C8_typemismatch_diagnostics_witness :
    (7 : Nat) = envW.buildId ∧ (9 : Nat) ≠ envW.typeId 0 ∧
    (Data.deserialize envW 0 (7, 9, 13)
        = Except.error (DeError.wrongType 9 (envW.typeName 0) (envW.typeId 0)) ∧
      (DeError.wrongType 9 (envW.typeName 0) (envW.typeId 0)).message
        = "relative reference to wrong type ???:" ++ toString (9 : Nat)
            ++ ", expected " ++ envW.typeName 0 ++ ":"
            ++ toString (envW.typeId 0)) :=
  ⟨by decide, by decide,
    C8_typemismatch_diagnostics envW 0 7 9 13 (by decide) (by decide)⟩

/-- Claim C9: offset construction is the wrapping subtraction of the anchor
and resolution is the wrapping addition of the anchor, both total with
results below the machine modulus for every address/anchor pair; in
particular, when the address lies numerically below the anchor the offset
is the large two's-complement value, and resolution still recovers the
address. -/
theorem C9_wrapping_arithmetic (env : Env) (T : Ty) (ptr : Nat)
    (d : Data T) (v : Vtable T)
    (hp : ptr < USIZE) (hd : env.dataBase < USIZE) (hv : env.vtableBase < USIZE) :
    (Data.from' env T ptr).off = wrapping_sub ptr env.dataBase ∧
    Data.to env d = wrapping_add env.dataBase d.off ∧
    (Vtable.from' env T ptr).off = wrapping_sub ptr env.vtableBase ∧
    Vtable.to env v = wrapping_add env.vtableBase v.off ∧
    (Data.from' env T ptr).off < USIZE ∧
    Data.to env d < USIZE ∧
    (Vtable.from' env T ptr).off < USIZE ∧
    Vtable.to env v < USIZE ∧
    (ptr < env.dataBase →
      (Data.from' env T ptr).off = USIZE - (env.dataBase - ptr)) ∧
    (ptr < env.dataBase → Data.to env (Data.from' env T ptr) = ptr) ∧
    (ptr < env.vtableBase →
      (Vtable.from' env T ptr).off = USIZE - (env.vtableBase - ptr)) ∧
    (ptr < env.vtableBase → Vtable.to env (Vtable.from' env T ptr) = ptr) := by
  refine ⟨rfl, rfl, rfl, rfl,
    Nat.mod_lt _ USIZE_pos, Nat.mod_lt _ USIZE_pos,
    Nat.mod_lt _ USIZE_pos, Nat.mod_lt _ USIZE_pos,
    fun hlt => ?_, fun _ => wrapping_add_sub_cancel _ _ hp,
    fun hlt => ?_, fun _ => wrapping_add_sub_cancel _ _ hp⟩
  · show wrapping_sub ptr env.dataBase = USIZE - (env.dataBase - ptr)
    unfold wrapping_sub
    rw [USIZE_eq] at hp hd ⊢
    omega
  · show wrapping_sub ptr env.vtableBase = USIZE - (env.vtableBase - ptr)
    unfold wrapping_sub
    rw [USIZE_eq] at hp hv ⊢
    omega

/-- Witness for C9 at a concrete environment with the address below both
anchors. -/
theorem C9_wrapping_arithmetic_witness :
    500 < USIZE ∧ envW.dataBase < USIZE ∧ envW.vtableBase < USIZE ∧
    ((Data.from' envW 0 500).off = wrapping_sub 500 envW.dataBase ∧
      Data.to envW (Data.new 0 17) = wrapping_add envW.dataBase (Data.new 0 17).off ∧
      (Vtable.from' envW 0 500).off = wrapping_sub 500 envW.vtableBase ∧
      Vtable.to envW (Vtable.new 0 17) = wrapping_add envW.vtableBase (Vtable.new 0 17).off ∧
      (Data.from' envW 0 500).off < USIZE ∧
      Data.to envW (Data.new 0 17) < USIZE ∧
      (Vtable.from' envW 0 500).off < USIZE ∧
      Vtable.to envW (Vtable.new 0 17) < USIZE ∧
      (500 < envW.dataBase →
        (Data.from' envW 0 500).off = USIZE - (envW.dataBase - 500)) ∧
      (500 < envW.dataBase → Data.to envW (Data.from' envW 0 500) = 500) ∧
      (500 < envW.vtableBase →
        (Vtable.from' envW 0 500).off = USIZE - (envW.vtableBase - 500)) ∧
      (500 < envW.vtableBase → Vtable.to envW (Vtable.from' envW 0 500) = 500)) :=
  ⟨by rw [USIZE_eq]; omega, by rw [USIZE_eq]; decide, by rw [USIZE_eq]; decide,
    C9_wrapping_arithmetic envW 0 500 (Data.new 0 17) (Vtable.new 0 17)
      (by rw [USIZE_eq]; omega) (by rw [USIZE_eq]; decide)
      (by rw [USIZE_eq]; decide)⟩

/-- Claim C10: the phantom type tag never influences the stored offset or
the resolved address — for any two tags and the same input address,
construction yields the same offset for all three kinds, resolution of
equal offsets yields equal addresses, and of the serialized record's three
fields only the fingerprint can depend on the tag. -/
theorem C10_phantom_noninterference (env : Env) (T U : Ty) (ptr o : Nat) :
    (Code.from' env T ptr).off = (Code.from' env U ptr).off ∧
    (Data.from' env T ptr).off = (Data.from' env U ptr).off ∧
    (Vtable.from' env T ptr).off = (Vtable.from' env U ptr).off ∧
    Code.to env (Code.new T o) = Code.to env (Code.new U o) ∧
    Data.to env (Data.new T o) = Data.to env (Data.new U o) ∧
    Vtable.to env (Vtable.new T o) = Vtable.to env (Vtable.new U o) ∧
    (Code.serialize env (Code.new T o)).1 = (Code.serialize env (Code.new U o)).1 ∧
    (Code.serialize env (Code.new T o)).2.2 = (Code.serialize env (Code.new U o)).2.2 ∧
    (Data.serialize env (Data.new T o)).1 = (Data.serialize env (Data.new U o)).1 ∧
    (Data.serialize env (Data.new T o)).2.2 = (Data.serialize env (Data.new U o)).2.2 ∧
    (Vtable.serialize env (Vtable.new T o)).1 = (Vtable.serialize env (Vtable.new U o)).1 ∧
    (Vtable.serialize env (Vtable.new T o)).2.2 = (Vtable.serialize env (Vtable.new U o)).2.2 :=
  ⟨rfl, rfl, rfl, rfl, rfl, rfl, rfl, rfl, rfl, rfl, rfl, rfl⟩

end Relative
